import Mathlib

/-!
# Verification of the VibratorService JNI dispatch layer

Shallow embedding of `services/core/jni/com_android_server_VibratorService.cpp`:
the generic retry/reconnect wrapper `halCall`, the effect-routing function
`vibratorPerformEffect`, and the one-shot control operations
(`vibratorInit`, `vibratorExists`, `vibratorOn`, `vibratorOff`,
`vibratorSupportsAmplitudeControl`, `vibratorSetAmplitude`).

Modelling conventions:
* A HIDL `Return<R>` is `HReturn R`: either transport success carrying a
  payload (`isOk()` true) or a transport-level failure (`isOk()` false; the
  `EX_NULL_POINTER` value produced by `NullptrStatus` and any transport error
  are indistinguishable to this layer, which only consults `isOk()`).
* Each `halCall` template instantiation owns one pair of function-local
  statics (`sHal`, `sAvailable`), modelled by `HalState`.  The process-wide
  collection of these pairs (one per instantiation used by this file) is
  `GlobalState`.
* The environment `HalEnv` resolves the nondeterminism of the external
  service: the reply delivered by invoking the interface method on a live
  handle at a given attempt index, and the handle (or null) produced by each
  `tryGetService` call.
* Every run also yields a trace of observable events: actual service
  invocations (with the argument passed), attempts made against a null
  handle (which contact no service), reconnections, and log statements.
* Machine integers: `jlong`/`jint` values are `Int`; a `uint32_t` store is
  reduction mod 2^32 (`u32` on `Nat`, `% 4294967296` on `Int` for
  `static_cast<uint32_t>` of a signed value).
-/

/-- `android.hardware.vibrator.V1_0.Status` (logical status codes). -/
inductive Status where
  | OK
  | UNKNOWN_ERROR
  | BAD_VALUE
  | UNSUPPORTED_OPERATION
deriving DecidableEq, Repr

/-- A HIDL `Return<R>`: transport success with payload (`isOk()` true) or a
transport-level failure (`isOk()` false). -/
inductive HReturn (R : Type) where
  | ok (r : R)
  | transportError
deriving DecidableEq, Repr

namespace HReturn

/-- `Return<R>::isOk()`. -/
def isOk {R : Type} : HReturn R → Bool
  | ok _ => true
  | transportError => false

/-- `Return<R>::withDefault(d)`: the payload on transport success, `d`
otherwise. -/
def withDefault {R : Type} (r : HReturn R) (d : R) : R :=
  match r with
  | ok v => v
  | transportError => d

end HReturn

/-- `NullptrStatus<R>()`: a `Return<R>` holding `EX_NULL_POINTER`, i.e. a
transport-level failure. -/
def NullptrStatus {R : Type} : HReturn R := HReturn.transportError

/-- An opaque non-null service handle (`sp<I>` that is not `nullptr`). -/
abbrev Handle := Nat

/-- The pair of function-local statics owned by one `halCall` instantiation:
`static sp<I> sHal` (`none` = `nullptr`) and `static bool sAvailable`. -/
structure HalState where
  sHal : Option Handle
  sAvailable : Bool
deriving DecidableEq, Repr

/-- The value the statics take on first entry:
`sHal = I::getService(); sAvailable = sHal != nullptr;` where `g` is what
`getService()` returned. -/
def initState (g : Option Handle) : HalState :=
  { sHal := g, sAvailable := g.isSome }

/-- Environment resolving the external service's behaviour for one `halCall`
invocation with argument type `A` and reply type `R`:
`call i h a` is the reply when attempt number `i` actually invokes the
interface method on live handle `h` with argument `a`; `tryGet i` is what the
`i`-th `I::tryGetService()` returns. -/
structure HalEnv (A R : Type) where
  call : Nat → Handle → A → HReturn R
  tryGet : Nat → Option Handle

/-- Observable events of one `halCall` run. -/
inductive HalEvent (A R : Type) where
  /-- The interface method was actually invoked on live handle `h` with
  argument `a` and yielded `res`. -/
  | serviceCall (h : Handle) (a : A) (res : HReturn R)
  /-- A loop iteration found `sHal == nullptr` and produced `NullptrStatus`
  without contacting any service. -/
  | nullAttempt
  /-- The `ALOGE("Failed to issue command to vibrator HAL. Retrying.")`
  error-level log in the retry loop. -/
  | retryErrorLog
  /-- `sHal = I::tryGetService()` ran and produced `h`. -/
  | reconnect (h : Option Handle)
deriving DecidableEq, Repr

/-- Outcome of one loop iteration: `NullptrStatus` when the cached handle is
null, otherwise the service's reply on that handle. -/
def attemptOutcome {A R : Type} (env : HalEnv A R) (i : Nat) (h : Option Handle)
    (a : A) : HReturn R :=
  match h with
  | none => NullptrStatus
  | some hd => env.call i hd a

/-- Trace of one loop iteration (before any retry handling). -/
def attemptEvents {A R : Type} (h : Option Handle) (a : A) (res : HReturn R) :
    List (HalEvent A R) :=
  match h with
  | none => [HalEvent.nullAttempt]
  | some hd => [HalEvent.serviceCall hd a res]

/-- The `for (int i = 0; i < NUM_TRIES; ++i)` loop of `halCall`: `fuel`
iterations remain, `i` is the current attempt index, `h` the current `sHal`,
`prev` the current `ret`.  Returns the final `ret`, the final `sHal` and the
trace.  (The C++ initialises `ret` with an `EX_NONE` value that is provably
dead for `NUM_TRIES ≥ 1`; `prev` plays that role and is discarded whenever at
least one iteration runs.) -/
def halCallLoop {A R : Type} (env : HalEnv A R) (a : A) :
    Nat → Nat → Option Handle → HReturn R →
    HReturn R × Option Handle × List (HalEvent A R)
  | 0, _, h, prev => (prev, h, [])
  | fuel + 1, i, h, _ =>
    let ret := attemptOutcome env i h a
    let evs := attemptEvents h a ret
    if ret.isOk then
      (ret, h, evs)
    else
      let h2 := env.tryGet i
      let rest := halCallLoop env a fuel (i + 1) h2 ret
      (rest.1, rest.2.1,
        evs ++ HalEvent.retryErrorLog :: HalEvent.reconnect h2 :: rest.2.2)

/-- `static constexpr int NUM_TRIES = 2;` -/
def NUM_TRIES : Nat := 2

/-- `halCall(fn, args...)` acting on the statics `st` of its instantiation:
if `sAvailable` is false the call returns `NullptrStatus` at once (no loop,
no events); otherwise the retry loop runs for `NUM_TRIES` iterations.
Returns the `Return<R>`, the updated statics, and the event trace. -/
def halCall {A R : Type} (env : HalEnv A R) (a : A) (st : HalState) :
    HReturn R × HalState × List (HalEvent A R) :=
  if st.sAvailable then
    let out := halCallLoop env a NUM_TRIES 0 st.sHal NullptrStatus
    (out.1, { sHal := out.2.1, sAvailable := st.sAvailable }, out.2.2)
  else
    (NullptrStatus, st, [])

/-- The distinct `halCall` template instantiations used by this file, one per
interface-method signature (note `vibratorInit` and `vibratorExists` both use
the `IVibrator::ping` instantiation). -/
inductive HalOp where
  | ping
  | on
  | off
  | supportsAmplitudeControl
  | setAmplitude
  | perform
  | perform_1_1
deriving DecidableEq, Repr

/-- The process-wide state: the `(sHal, sAvailable)` statics of every
`halCall` instantiation.  C++ function-template statics are per
specialisation, so each instantiation owns its own pair. -/
structure GlobalState where
  stPing : HalState
  stOn : HalState
  stOff : HalState
  stSupportsAmplitudeControl : HalState
  stSetAmplitude : HalState
  stPerform : HalState
  stPerform11 : HalState
deriving DecidableEq, Repr

/-- Projection of the statics owned by one instantiation. -/
def stateOf (g : GlobalState) : HalOp → HalState
  | HalOp.ping => g.stPing
  | HalOp.on => g.stOn
  | HalOp.off => g.stOff
  | HalOp.supportsAmplitudeControl => g.stSupportsAmplitudeControl
  | HalOp.setAmplitude => g.stSetAmplitude
  | HalOp.perform => g.stPerform
  | HalOp.perform_1_1 => g.stPerform11

/-- Reduction mod 2^32: the value a `uint32_t` object holds. -/
def u32 (n : Nat) : Nat := n % 4294967296

/-- `static_cast<uint32_t>` of a signed integer value. -/
def u32ofInt (i : Int) : Int := i % 4294967296

/-- Log statements of the one-shot control operations
(`ALOGE("... command failed ...")` and the like): all error level. -/
inductive CLog where
  | commandFailedError (st : Status)
deriving DecidableEq, Repr

/-- `vibratorInit`: `halCall(&IVibrator::ping).isOk();` — result discarded.
Uses (and updates) the `ping` instantiation's statics. -/
def vibratorInit (env : HalEnv Unit Unit) (g : GlobalState) :
    GlobalState × List (HalEvent Unit Unit) :=
  let out := halCall env () g.stPing
  ({ g with stPing := out.2.1 }, out.2.2)

/-- `vibratorExists`: `halCall(&IVibrator::ping).isOk() ? JNI_TRUE : JNI_FALSE`. -/
def vibratorExists (env : HalEnv Unit Unit) (g : GlobalState) :
    Bool × GlobalState × List (HalEvent Unit Unit) :=
  let out := halCall env () g.stPing
  (out.1.isOk, { g with stPing := out.2.1 }, out.2.2)

/-- `vibratorOn(timeout_ms)`:
`halCall(&IVibrator::on, timeout_ms).withDefault(Status::UNKNOWN_ERROR)`,
logging an error when the resolved status is not `OK`. -/
def vibratorOn (env : HalEnv Int Status) (g : GlobalState) (timeout_ms : Int) :
    GlobalState × List (HalEvent Int Status) × List CLog :=
  let out := halCall env timeout_ms g.stOn
  let retStatus := out.1.withDefault Status.UNKNOWN_ERROR
  ({ g with stOn := out.2.1 }, out.2.2,
    if retStatus = Status.OK then [] else [CLog.commandFailedError retStatus])

/-- `vibratorOff`: as `vibratorOn` but for `IVibrator::off` (no argument). -/
def vibratorOff (env : HalEnv Unit Status) (g : GlobalState) :
    GlobalState × List (HalEvent Unit Status) × List CLog :=
  let out := halCall env () g.stOff
  let retStatus := out.1.withDefault Status.UNKNOWN_ERROR
  ({ g with stOff := out.2.1 }, out.2.2,
    if retStatus = Status.OK then [] else [CLog.commandFailedError retStatus])

/-- `vibratorSupportsAmplitudeControl`:
`halCall(&IVibrator::supportsAmplitudeControl).withDefault(false)`. -/
def vibratorSupportsAmplitudeControl (env : HalEnv Unit Bool) (g : GlobalState) :
    Bool × GlobalState × List (HalEvent Unit Bool) :=
  let out := halCall env () g.stSupportsAmplitudeControl
  (out.1.withDefault false, { g with stSupportsAmplitudeControl := out.2.1 },
    out.2.2)

/-- `vibratorSetAmplitude(amplitude)`:
`halCall(&IVibrator::setAmplitude, static_cast<uint32_t>(amplitude))
    .withDefault(Status::UNKNOWN_ERROR)`, logging an error on non-`OK`.
The `jint` argument is converted to `uint32_t` before being handed to the
service: the service sees `amplitude % 2^32`. -/
def vibratorSetAmplitude (env : HalEnv Int Status) (g : GlobalState)
    (amplitude : Int) : GlobalState × List (HalEvent Int Status) × List CLog :=
  let out := halCall env (u32ofInt amplitude) g.stSetAmplitude
  let status := out.1.withDefault Status.UNKNOWN_ERROR
  ({ g with stSetAmplitude := out.2.1 }, out.2.2,
    if status = Status.OK then [] else [CLog.commandFailedError status])

/-- Payload the `perform`/`perform_1_1` callback delivers on transport
success: `(retStatus, retLengthMs)` with `retLengthMs` a `uint32_t`. -/
abbrev PerformReply := Status × Nat

/-- `Effect_1_1::TICK` as an integer (the V1.1 HAL enum, an external
interface of this file: `CLICK = 0`, `DOUBLE_CLICK = 1`, `TICK = 2`).  Also
the largest known effect id (`MAX_KNOWN_EFFECT`). -/
def TICK : Int := 2

/-- Log statements of `vibratorPerformEffect` itself (the `ALOGE` inside
`halCall`'s retry loop is recorded in the hal trace instead). -/
inductive PLog where
  /-- `ALOGW("Unable to perform haptic effect, invalid effect ID ...")` —
  warn level. -/
  | invalidEffectWarn (effect : Int)
  /-- `ALOGW("Failed to perform effect ..., insufficient HAL version")` —
  warn level. -/
  | versionFailWarn (effect : Int)
  /-- `ALOGW("Failed to perform effect ...")` — warn level. -/
  | performFailWarn (effect : Int)
  /-- `ALOGE("Failed to perform haptic effect: effect=..., strength=...,
  error=...")` — error level. -/
  | performErrorE (effect strength : Int) (st : Status)
deriving DecidableEq, Repr

/-- Everything observable about one `vibratorPerformEffect` run. -/
structure PerformOut where
  /-- The `jlong` return value. -/
  ret : Int
  /-- The process-wide statics after the run. -/
  g : GlobalState
  /-- Which HAL entry point was dispatched to (`none`: rejected before any
  service contact). -/
  entry : Option HalOp
  /-- The `Return<void>` of the dispatched `halCall`, with the callback's
  payload attached on transport success (`none`: no dispatch happened). -/
  dispatch : Option (HReturn PerformReply)
  /-- The event trace of the dispatched `halCall` (empty if none ran). -/
  halTrace : List (HalEvent (Int × Int) PerformReply)
  /-- `vibratorPerformEffect`'s own log statements. -/
  logs : List PLog
deriving DecidableEq, Repr

/-- `vibratorPerformEffect(effect, strength)`.

The C++ declares `Status status; uint32_t lengthMs;` WITHOUT initialisers and
only the callback (run on a transport-successful attempt) assigns them; the
final `if (status == Status::OK)` reads them regardless.  The indeterminate
initial contents of those locals are therefore explicit parameters
`indetStatus`, `indetLengthMs`, used exactly on the paths where the callback
never ran (invalid effect id, or dispatch failed at transport level).

`static_cast<EffectStrength>(strength)`, `static_cast<Effect>(effect)` and
`static_cast<Effect_1_1>(effect)` are casts to enums declared in the external
HAL headers and are modelled value-preserving; the argument pair handed to
the service is `(effect, strength)`.

The `effect == TICK` branch dispatches through the `IVibrator_1_1`
instantiation (`perform_1_1`); the remaining in-range branch through the
`IVibrator` one (`perform`).  The common tail
(`if (status == Status::OK) return lengthMs; else if (status !=
Status::UNSUPPORTED_OPERATION) ALOGE(...); return -1;`) is `performFinish`. -/
def performFinish (effect strength : Int) (sl : Status × Nat)
    (g' : GlobalState) (entry : Option HalOp)
    (dispatch : Option (HReturn PerformReply))
    (tr : List (HalEvent (Int × Int) PerformReply)) (logs1 : List PLog) :
    PerformOut :=
  if sl.1 = Status.OK then
    { ret := (sl.2 : Int), g := g', entry := entry, dispatch := dispatch,
      halTrace := tr, logs := logs1 }
  else if sl.1 ≠ Status.UNSUPPORTED_OPERATION then
    { ret := -1, g := g', entry := entry, dispatch := dispatch,
      halTrace := tr,
      logs := logs1 ++ [PLog.performErrorE effect strength sl.1] }
  else
    { ret := -1, g := g', entry := entry, dispatch := dispatch,
      halTrace := tr, logs := logs1 }

/-- See the doc comment above `performFinish`. -/
def vibratorPerformEffect (envPerform envPerform11 : HalEnv (Int × Int) PerformReply)
    (g : GlobalState) (indetStatus : Status) (indetLengthMs : Nat)
    (effect strength : Int) : PerformOut :=
  -- EffectStrength effectStrength(static_cast<EffectStrength>(strength));
  let effectStrength : Int := strength
  if effect < 0 ∨ effect > TICK then
    performFinish effect strength (indetStatus, u32 indetLengthMs) g none none
      [] [PLog.invalidEffectWarn effect]
  else if effect = TICK then
    let out := halCall envPerform11 (effect, effectStrength) g.stPerform11
    let sl := match out.1 with
      | HReturn.ok p => (p.1, u32 p.2)
      | HReturn.transportError => (indetStatus, u32 indetLengthMs)
    performFinish effect strength sl { g with stPerform11 := out.2.1 }
      (some HalOp.perform_1_1) (some out.1) out.2.2
      (if out.1.isOk then [] else [PLog.versionFailWarn effect])
  else
    let out := halCall envPerform (effect, effectStrength) g.stPerform
    let sl := match out.1 with
      | HReturn.ok p => (p.1, u32 p.2)
      | HReturn.transportError => (indetStatus, u32 indetLengthMs)
    performFinish effect strength sl { g with stPerform := out.2.1 }
      (some HalOp.perform) (some out.1) out.2.2
      (if out.1.isOk then [] else [PLog.performFailWarn effect])

/-! ## Trace observations -/

/-- Is this event a loop attempt (a service invocation or a null-handle
iteration)? -/
def isAttempt {A R : Type} : HalEvent A R → Bool
  | HalEvent.serviceCall _ _ _ => true
  | HalEvent.nullAttempt => true
  | _ => false

/-- Is this event an actual service invocation? -/
def isServiceCall {A R : Type} : HalEvent A R → Bool
  | HalEvent.serviceCall _ _ _ => true
  | _ => false

/-- Is this event a `tryGetService` reconnection? -/
def isReconnect {A R : Type} : HalEvent A R → Bool
  | HalEvent.reconnect _ => true
  | _ => false

/-- Is this event the error-level retry log? -/
def isRetryError {A R : Type} : HalEvent A R → Bool
  | HalEvent.retryErrorLog => true
  | _ => false

/-- Number of loop attempts recorded in a trace. -/
def attemptCount {A R : Type} (tr : List (HalEvent A R)) : Nat :=
  (tr.filter isAttempt).length

/-- Number of actual service invocations recorded in a trace. -/
def serviceCallCount {A R : Type} (tr : List (HalEvent A R)) : Nat :=
  (tr.filter isServiceCall).length

/-- Number of reconnections recorded in a trace. -/
def reconnectCount {A R : Type} (tr : List (HalEvent A R)) : Nat :=
  (tr.filter isReconnect).length

/-- Number of error-level retry logs recorded in a trace. -/
def retryErrorCount {A R : Type} (tr : List (HalEvent A R)) : Nat :=
  (tr.filter isRetryError).length

/-- The argument a service-invocation event carried (`none` for other
events). -/
def callArgs {A R : Type} : HalEvent A R → Option A
  | HalEvent.serviceCall _ a _ => some a
  | _ => none

/-- Is this `vibratorPerformEffect` log statement error level (`ALOGE`)?
(`invalidEffectWarn`, `versionFailWarn`, `performFailWarn` are `ALOGW`.) -/
def plogIsError : PLog → Bool
  | PLog.performErrorE _ _ _ => true
  | _ => false

/-- Total error-level log statements of one `vibratorPerformEffect` run: the
retry `ALOGE`s inside the dispatched `halCall` plus the run's own `ALOGE`s. -/
def errorLevelCount (out : PerformOut) : Nat :=
  retryErrorCount out.halTrace + (out.logs.filter plogIsError).length

/-! ## Sample environments and states (concrete inputs for witnesses) -/

/-- Environment whose service always replies `r` and whose `tryGetService`
always yields handle `9`. -/
def envConst (A : Type) {R : Type} (r : HReturn R) : HalEnv A R :=
  { call := fun _ _ _ => r, tryGet := fun _ => some 9 }

/-- Environment whose every attempt fails at transport level, with
`tryGetService` yielding handle `9`. -/
def envFail (A R : Type) : HalEnv A R :=
  { call := fun _ _ _ => HReturn.transportError, tryGet := fun _ => some 9 }

/-- Environment whose first attempt fails at transport level and whose second
attempt completes with logical status `UNSUPPORTED_OPERATION` (duration 5);
`tryGetService` yields handle `9`. -/
def envRetryUnsupported : HalEnv (Int × Int) PerformReply :=
  { call := fun i _ _ =>
      if i = 0 then HReturn.transportError
      else HReturn.ok (Status.UNSUPPORTED_OPERATION, 5),
    tryGet := fun _ => some 9 }

/-- All seven instantiations initialised with a live handle `1`. -/
def gReady : GlobalState :=
  { stPing := initState (some 1), stOn := initState (some 1),
    stOff := initState (some 1),
    stSupportsAmplitudeControl := initState (some 1),
    stSetAmplitude := initState (some 1), stPerform := initState (some 1),
    stPerform11 := initState (some 1) }

/-! ## Characterisation of `halCall` -/

lemma halCall_first_ok {A R : Type} (env : HalEnv A R) (a : A)
    (h : Option Handle) (hok : (attemptOutcome env 0 h a).isOk = true) :
    halCall env a ⟨h, true⟩ =
      (attemptOutcome env 0 h a, ⟨h, true⟩,
        attemptEvents h a (attemptOutcome env 0 h a)) := by
  simp [halCall, NUM_TRIES, halCallLoop, hok]

lemma halCall_first_fail {A R : Type} (env : HalEnv A R) (a : A)
    (h : Option Handle) (hfail : (attemptOutcome env 0 h a).isOk = false) :
    halCall env a ⟨h, true⟩ =
      (attemptOutcome env 1 (env.tryGet 0) a,
        ⟨if (attemptOutcome env 1 (env.tryGet 0) a).isOk then env.tryGet 0
          else env.tryGet 1, true⟩,
        attemptEvents h a (attemptOutcome env 0 h a) ++
          HalEvent.retryErrorLog :: HalEvent.reconnect (env.tryGet 0) ::
          (attemptEvents (env.tryGet 0) a
              (attemptOutcome env 1 (env.tryGet 0) a) ++
            if (attemptOutcome env 1 (env.tryGet 0) a).isOk then []
            else [HalEvent.retryErrorLog, HalEvent.reconnect (env.tryGet 1)])) := by
  cases hok2 : (attemptOutcome env 1 (env.tryGet 0) a).isOk <;>
    simp [halCall, NUM_TRIES, halCallLoop, hfail, hok2]

lemma attemptCount_append {A R : Type} (l1 l2 : List (HalEvent A R)) :
    attemptCount (l1 ++ l2) = attemptCount l1 + attemptCount l2 := by
  simp [attemptCount]

lemma attemptCount_attemptEvents {A R : Type} (h : Option Handle) (a : A)
    (o : HReturn R) : attemptCount (attemptEvents h a o) = 1 := by
  cases h <;> rfl

lemma attemptCount_cons_retryError {A R : Type} (l : List (HalEvent A R)) :
    attemptCount (HalEvent.retryErrorLog :: l) = attemptCount l := by
  simp [attemptCount, isAttempt]

lemma attemptCount_cons_reconnect {A R : Type} (h : Option Handle)
    (l : List (HalEvent A R)) :
    attemptCount (HalEvent.reconnect h :: l) = attemptCount l := by
  simp [attemptCount, isAttempt]

/-- The retry loop makes at most `fuel` attempts. -/
lemma attemptCount_halCallLoop {A R : Type} (env : HalEnv A R) (a : A) :
    ∀ (fuel i : Nat) (h : Option Handle) (prev : HReturn R),
      attemptCount (halCallLoop env a fuel i h prev).2.2 ≤ fuel := by
  intro fuel
  induction fuel with
  | zero => intro i h prev; simp [halCallLoop, attemptCount]
  | succ n ih =>
    intro i h prev
    simp only [halCallLoop]
    split
    · simp [attemptCount_attemptEvents]
    · rw [attemptCount_append, attemptCount_attemptEvents,
        attemptCount_cons_retryError, attemptCount_cons_reconnect]
      have := ih (i + 1) (env.tryGet i) (attemptOutcome env i h a)
      omega

/-- `halCall` makes at most `NUM_TRIES` attempts. -/
lemma attemptCount_halCall {A R : Type} (env : HalEnv A R) (a : A)
    (st : HalState) : attemptCount (halCall env a st).2.2 ≤ NUM_TRIES := by
  cases hav : st.sAvailable
  · simp [halCall, hav, attemptCount]
  · simp only [halCall, hav, if_true]
    exact attemptCount_halCallLoop env a NUM_TRIES 0 st.sHal NullptrStatus

/-- C2: with the instantiation's statics available, `halCall` makes at most
`NUM_TRIES = 2` attempts; if the first attempt succeeds at transport level
(whatever logical status its payload carries) the call stops there — one
attempt, no reconnection — and returns that outcome with the statics
untouched; if the first attempt fails at transport level, exactly one
reconnection (`tryGetService`) happens between the first and the second
attempt, and the call returns the second (last) attempt's outcome.  (The
trace in the failure case also shows that a second attempt that itself fails
is followed by one more reconnection after the loop, but no third attempt.) -/
theorem halCall_retry_semantics {A R : Type} (env : HalEnv A R) (a : A)
    (st : HalState) (hav : st.sAvailable = true) :
    attemptCount (halCall env a st).2.2 ≤ NUM_TRIES ∧
    ((attemptOutcome env 0 st.sHal a).isOk = true →
      halCall env a st =
        (attemptOutcome env 0 st.sHal a, st,
          attemptEvents st.sHal a (attemptOutcome env 0 st.sHal a))) ∧
    ((attemptOutcome env 0 st.sHal a).isOk = false →
      halCall env a st =
        (attemptOutcome env 1 (env.tryGet 0) a,
          ⟨if (attemptOutcome env 1 (env.tryGet 0) a).isOk then env.tryGet 0
            else env.tryGet 1, true⟩,
          attemptEvents st.sHal a (attemptOutcome env 0 st.sHal a) ++
            HalEvent.retryErrorLog :: HalEvent.reconnect (env.tryGet 0) ::
            (attemptEvents (env.tryGet 0) a
                (attemptOutcome env 1 (env.tryGet 0) a) ++
              if (attemptOutcome env 1 (env.tryGet 0) a).isOk then []
              else [HalEvent.retryErrorLog,
                HalEvent.reconnect (env.tryGet 1)]))) := by
  obtain ⟨h, av⟩ := st
  cases av
  · simp at hav
  · exact ⟨attemptCount_halCall env a ⟨h, true⟩,
      fun hok => halCall_first_ok env a h hok,
      fun hfail => halCall_first_fail env a h hfail⟩

/-- Witness for C2 at a concrete input: a first attempt that succeeds at
transport level while carrying the logical error `UNKNOWN_ERROR` is not
retried — one attempt, no reconnection, and that outcome is returned. -/
theorem halCall_retry_semantics_witness :
    (initState (some 1)).sAvailable = true ∧
    (attemptOutcome (envConst Unit (HReturn.ok Status.UNKNOWN_ERROR)) 0
        (initState (some 1)).sHal ()).isOk = true ∧
    halCall (envConst Unit (HReturn.ok Status.UNKNOWN_ERROR)) ()
        (initState (some 1)) =
      (HReturn.ok Status.UNKNOWN_ERROR, initState (some 1),
        [HalEvent.serviceCall 1 () (HReturn.ok Status.UNKNOWN_ERROR)]) := by
  refine ⟨rfl, rfl, ?_⟩
  have h := (halCall_retry_semantics
    (envConst Unit (HReturn.ok Status.UNKNOWN_ERROR)) ()
    (initState (some 1)) rfl).2.1 rfl
  simpa [envConst, initState, attemptOutcome, attemptEvents] using h

/-- C3 counterexample: the initial acquisition yielded no handle
(`sAvailable` recorded false), the service has since become available (the
environment's `tryGetService` would deliver handle `9` and every invocation
on it would succeed), yet a later `halCall` returns the transport-failure
sentinel with an empty trace: no reconnection is ever attempted and the
statics are unchanged, so the service can never be reached. -/
theorem halCall_unavailable_blocks_reconnect_cex :
    (initState none).sAvailable = false ∧
    halCall (envConst Unit (HReturn.ok Status.OK)) () (initState none) =
      (HReturn.transportError, initState none, []) ∧
    reconnectCount
      (halCall (envConst Unit (HReturn.ok Status.OK)) ()
        (initState none)).2.2 = 0 := by
  exact ⟨rfl, rfl, rfl⟩

/-- C3 amended: once `sAvailable` is false — which is exactly the record of
an initial acquisition that yielded no handle, since it is assigned only at
static initialisation — every later `halCall` returns `NullptrStatus`
immediately, performs no attempt and no `reconnect()`, and leaves the statics
(including the false flag) unchanged; a fresh acquisition attempt through the
dispatcher is therefore impossible. -/
theorem halCall_unavailable_permanent {A R : Type} (env : HalEnv A R) (a : A)
    (st : HalState) (hun : st.sAvailable = false) :
    halCall env a st = (NullptrStatus, st, []) ∧
    reconnectCount (halCall env a st).2.2 = 0 ∧
    attemptCount (halCall env a st).2.2 = 0 ∧
    (halCall env a st).2.1.sAvailable = false := by
  have h : halCall env a st = (NullptrStatus, st, []) := by
    simp [halCall, hun]
  refine ⟨h, ?_, ?_, ?_⟩ <;> rw [h] <;>
    simp [reconnectCount, attemptCount, hun]

/-! ## Field lemmas for `performFinish` and argument lemmas for `halCall` -/

@[simp] lemma performFinish_g (effect strength : Int) (sl : Status × Nat)
    (g' : GlobalState) (entry : Option HalOp)
    (dispatch : Option (HReturn PerformReply))
    (tr : List (HalEvent (Int × Int) PerformReply)) (logs1 : List PLog) :
    (performFinish effect strength sl g' entry dispatch tr logs1).g = g' := by
  unfold performFinish; split_ifs <;> rfl

@[simp] lemma performFinish_entry (effect strength : Int) (sl : Status × Nat)
    (g' : GlobalState) (entry : Option HalOp)
    (dispatch : Option (HReturn PerformReply))
    (tr : List (HalEvent (Int × Int) PerformReply)) (logs1 : List PLog) :
    (performFinish effect strength sl g' entry dispatch tr logs1).entry =
      entry := by
  unfold performFinish; split_ifs <;> rfl

@[simp] lemma performFinish_dispatch (effect strength : Int) (sl : Status × Nat)
    (g' : GlobalState) (entry : Option HalOp)
    (dispatch : Option (HReturn PerformReply))
    (tr : List (HalEvent (Int × Int) PerformReply)) (logs1 : List PLog) :
    (performFinish effect strength sl g' entry dispatch tr logs1).dispatch =
      dispatch := by
  unfold performFinish; split_ifs <;> rfl

@[simp] lemma performFinish_halTrace (effect strength : Int) (sl : Status × Nat)
    (g' : GlobalState) (entry : Option HalOp)
    (dispatch : Option (HReturn PerformReply))
    (tr : List (HalEvent (Int × Int) PerformReply)) (logs1 : List PLog) :
    (performFinish effect strength sl g' entry dispatch tr logs1).halTrace =
      tr := by
  unfold performFinish; split_ifs <;> rfl

lemma performFinish_ret_of_ok (effect strength : Int) (sl : Status × Nat)
    (g' : GlobalState) (entry : Option HalOp)
    (dispatch : Option (HReturn PerformReply))
    (tr : List (HalEvent (Int × Int) PerformReply)) (logs1 : List PLog)
    (hsl : sl.1 = Status.OK) :
    (performFinish effect strength sl g' entry dispatch tr logs1).ret =
      (sl.2 : Int) := by
  simp [performFinish, hsl]

lemma performFinish_of_unsupported (effect strength : Int) (sl : Status × Nat)
    (g' : GlobalState) (entry : Option HalOp)
    (dispatch : Option (HReturn PerformReply))
    (tr : List (HalEvent (Int × Int) PerformReply)) (logs1 : List PLog)
    (hsl : sl.1 = Status.UNSUPPORTED_OPERATION) :
    (performFinish effect strength sl g' entry dispatch tr logs1).ret = -1 ∧
    (performFinish effect strength sl g' entry dispatch tr logs1).logs =
      logs1 := by
  simp [performFinish, hsl]

/-- Every actual service invocation the retry loop records carries the
argument `halCall` was given. -/
lemma callArgs_halCallLoop {A R : Type} (env : HalEnv A R) (a : A) :
    ∀ (fuel i : Nat) (h : Option Handle) (prev : HReturn R),
      ∀ ev ∈ (halCallLoop env a fuel i h prev).2.2,
        ∀ x, callArgs ev = some x → x = a := by
  intro fuel
  induction fuel with
  | zero => intro i h prev ev hev; simp [halCallLoop] at hev
  | succ n ih =>
    intro i h prev ev hev x hx
    simp only [halCallLoop] at hev
    split at hev
    · cases h <;> simp only [attemptEvents, List.mem_singleton] at hev <;>
        subst hev
      · simp [callArgs] at hx
      · simp only [callArgs, Option.some.injEq] at hx
        exact hx.symm
    · simp only [List.mem_append, List.mem_cons] at hev
      rcases hev with hev | hev | hev | hev
      · cases h <;> simp only [attemptEvents, List.mem_singleton] at hev <;>
          subst hev
        · simp [callArgs] at hx
        · simp only [callArgs, Option.some.injEq] at hx
          exact hx.symm
      · subst hev; simp [callArgs] at hx
      · subst hev; simp [callArgs] at hx
      · exact ih (i + 1) (env.tryGet i) (attemptOutcome env i h a) ev hev x hx

/-- Every actual service invocation `halCall` records carries the argument it
was given. -/
lemma callArgs_halCall {A R : Type} (env : HalEnv A R) (a : A) (st : HalState) :
    ∀ ev ∈ (halCall env a st).2.2, ∀ x, callArgs ev = some x → x = a := by
  intro ev hev x hx
  unfold halCall at hev
  split at hev
  · exact callArgs_halCallLoop env a NUM_TRIES 0 st.sHal NullptrStatus ev hev x hx
  · simp at hev

/-- C1: for an out-of-range effect id the service is indeed never invoked
(no entry point selected, empty hal trace), but the claimed return of -1
fails — the C++ declares `Status status;` uninitialised and the invalid
branch never assigns it before `if (status == Status::OK)` reads it; when the
indeterminate contents happen to equal `OK` (here with indeterminate
`lengthMs` 42), `performEffect(-1, 1)` returns the indeterminate 42 instead
of -1. -/
theorem vibratorPerformEffect_invalid_uninit_bug :
    (vibratorPerformEffect (envFail (Int × Int) PerformReply)
        (envFail (Int × Int) PerformReply) gReady Status.OK 42 (-1) 1).entry =
      none ∧
    (vibratorPerformEffect (envFail (Int × Int) PerformReply)
        (envFail (Int × Int) PerformReply) gReady Status.OK 42 (-1) 1).halTrace =
      [] ∧
    (vibratorPerformEffect (envFail (Int × Int) PerformReply)
        (envFail (Int × Int) PerformReply) gReady Status.OK 42 (-1) 1).ret =
      42 ∧
    (vibratorPerformEffect (envFail (Int × Int) PerformReply)
        (envFail (Int × Int) PerformReply) gReady Status.OK 42 (-1) 1).ret ≠
      -1 := by
  decide

/-- C4: `performEffect` routing — when the effect id equals `TICK` (the one
id reserved for the Extended capability), the dispatch goes through the
`IVibrator_1_1::perform_1_1` instantiation with argument pair
`(effect, strength)` and the Base instantiation's statics are untouched; for
every other id in `[0, TICK)` it goes through `IVibrator::perform` with the
same pair and the Extended instantiation's statics are untouched. -/
theorem vibratorPerformEffect_version_routing
    (envPerform envPerform11 : HalEnv (Int × Int) PerformReply)
    (g : GlobalState) (indetStatus : Status) (indetLengthMs : Nat)
    (effect strength : Int) :
    (effect = TICK →
      (vibratorPerformEffect envPerform envPerform11 g indetStatus
          indetLengthMs effect strength).entry = some HalOp.perform_1_1 ∧
      (vibratorPerformEffect envPerform envPerform11 g indetStatus
          indetLengthMs effect strength).dispatch =
        some (halCall envPerform11 (effect, strength) g.stPerform11).1 ∧
      (vibratorPerformEffect envPerform envPerform11 g indetStatus
          indetLengthMs effect strength).halTrace =
        (halCall envPerform11 (effect, strength) g.stPerform11).2.2 ∧
      (vibratorPerformEffect envPerform envPerform11 g indetStatus
          indetLengthMs effect strength).g.stPerform = g.stPerform) ∧
    (0 ≤ effect → effect < TICK →
      (vibratorPerformEffect envPerform envPerform11 g indetStatus
          indetLengthMs effect strength).entry = some HalOp.perform ∧
      (vibratorPerformEffect envPerform envPerform11 g indetStatus
          indetLengthMs effect strength).dispatch =
        some (halCall envPerform (effect, strength) g.stPerform).1 ∧
      (vibratorPerformEffect envPerform envPerform11 g indetStatus
          indetLengthMs effect strength).halTrace =
        (halCall envPerform (effect, strength) g.stPerform).2.2 ∧
      (vibratorPerformEffect envPerform envPerform11 g indetStatus
          indetLengthMs effect strength).g.stPerform11 = g.stPerform11) := by
  constructor
  · intro hT
    simp [vibratorPerformEffect, hT, TICK]
  · intro h0 h1
    have h0' : ¬(effect < 0) := not_lt.mpr h0
    have h1' : ¬(effect > TICK) := not_lt.mpr (le_of_lt h1)
    have hne : ¬(effect = TICK) := by
      intro h; rw [h] at h1; exact lt_irrefl _ h1
    simp [vibratorPerformEffect, h0', h1', hne]

/-- Witness for C4 at concrete inputs: id 2 (`TICK`) routes to the Extended
entry point, id 0 routes to the Base one. -/
theorem vibratorPerformEffect_version_routing_witness :
    (vibratorPerformEffect (envConst (Int × Int) (HReturn.ok (Status.OK, 12)))
        (envConst (Int × Int) (HReturn.ok (Status.OK, 12))) gReady
        Status.UNKNOWN_ERROR 0 2 1).entry = some HalOp.perform_1_1 ∧
    (vibratorPerformEffect (envConst (Int × Int) (HReturn.ok (Status.OK, 12)))
        (envConst (Int × Int) (HReturn.ok (Status.OK, 12))) gReady
        Status.UNKNOWN_ERROR 0 0 1).entry = some HalOp.perform :=
  ⟨((vibratorPerformEffect_version_routing
      (envConst (Int × Int) (HReturn.ok (Status.OK, 12)))
      (envConst (Int × Int) (HReturn.ok (Status.OK, 12))) gReady
      Status.UNKNOWN_ERROR 0 2 1).1 rfl).1,
    ((vibratorPerformEffect_version_routing
      (envConst (Int × Int) (HReturn.ok (Status.OK, 12)))
      (envConst (Int × Int) (HReturn.ok (Status.OK, 12))) gReady
      Status.UNKNOWN_ERROR 0 0 1).2 (by decide) (by decide)).1⟩

/-- C5: with every transport attempt failing, `exists` and
`supportsAmplitudeControl` do return false, and `on`/`off`/`setAmplitude`
complete having resolved the missing result to the `UNKNOWN_ERROR` default
(one error log, no exception — the model is a total function).  But the
claimed -1 for `performEffect` fails: on the transport-failure path the
callback never runs, the uninitialised `Status status; uint32_t lengthMs;`
locals are read at the final interpretation, and when the indeterminate
status happens to equal `OK` (here with indeterminate `lengthMs` 7) the call
returns the indeterminate 7 instead of -1. -/
theorem transport_failure_defaults_bug :
    (vibratorExists (envFail Unit Unit) gReady).1 = false ∧
    (vibratorSupportsAmplitudeControl (envFail Unit Bool) gReady).1 = false ∧
    (vibratorOn (envFail Int Status) gReady 20).2.2 =
      [CLog.commandFailedError Status.UNKNOWN_ERROR] ∧
    (vibratorOff (envFail Unit Status) gReady).2.2 =
      [CLog.commandFailedError Status.UNKNOWN_ERROR] ∧
    (vibratorSetAmplitude (envFail Int Status) gReady 128).2.2 =
      [CLog.commandFailedError Status.UNKNOWN_ERROR] ∧
    (vibratorPerformEffect (envFail (Int × Int) PerformReply)
        (envFail (Int × Int) PerformReply) gReady Status.OK 7 0 1).dispatch =
      some HReturn.transportError ∧
    (vibratorPerformEffect (envFail (Int × Int) PerformReply)
        (envFail (Int × Int) PerformReply) gReady Status.OK 7 0 1).ret = 7 ∧
    (vibratorPerformEffect (envFail (Int × Int) PerformReply)
        (envFail (Int × Int) PerformReply) gReady Status.OK 7 0 1).ret ≠
      -1 := by
  decide

/-- C6 counterexample: effect id 0 (in range), the first transport attempt
fails and the second completes with logical status `UNSUPPORTED_OPERATION` —
the dispatched call completed with `UNSUPPORTED_OPERATION` and
`performEffect` returns -1, yet one error-level diagnostic (the retry
`ALOGE` inside `halCall`) was emitted during the invocation, contradicting
"emits no error-level diagnostic". -/
theorem vibratorPerformEffect_unsupported_errorlog_cex :
    (vibratorPerformEffect envRetryUnsupported envRetryUnsupported gReady
        Status.UNKNOWN_ERROR 0 0 1).dispatch =
      some (HReturn.ok (Status.UNSUPPORTED_OPERATION, 5)) ∧
    (vibratorPerformEffect envRetryUnsupported envRetryUnsupported gReady
        Status.UNKNOWN_ERROR 0 0 1).ret = -1 ∧
    errorLevelCount
      (vibratorPerformEffect envRetryUnsupported envRetryUnsupported gReady
        Status.UNKNOWN_ERROR 0 0 1) = 1 := by
  decide

/-- C6 amended: whenever the dispatched call completes with logical status
`UNSUPPORTED_OPERATION`, `performEffect` returns -1 and its own log output is
empty — in particular the status interpretation emits no error-level
diagnostic (the silent expected fallback); every error-level diagnostic of
such a run is one of `halCall`'s transport-retry logs, so a run whose
dispatch needed no retry emits none at all. -/
theorem vibratorPerformEffect_unsupported_silent
    (envPerform envPerform11 : HalEnv (Int × Int) PerformReply)
    (g : GlobalState) (indetStatus : Status) (indetLengthMs : Nat)
    (effect strength : Int) (d : Nat)
    (hd : (vibratorPerformEffect envPerform envPerform11 g indetStatus
        indetLengthMs effect strength).dispatch =
      some (HReturn.ok (Status.UNSUPPORTED_OPERATION, d))) :
    (vibratorPerformEffect envPerform envPerform11 g indetStatus indetLengthMs
        effect strength).ret = -1 ∧
    (vibratorPerformEffect envPerform envPerform11 g indetStatus indetLengthMs
        effect strength).logs = [] ∧
    errorLevelCount (vibratorPerformEffect envPerform envPerform11 g
        indetStatus indetLengthMs effect strength) =
      retryErrorCount (vibratorPerformEffect envPerform envPerform11 g
        indetStatus indetLengthMs effect strength).halTrace := by
  by_cases h1 : effect < 0 ∨ effect > TICK
  · exfalso
    simp [vibratorPerformEffect, h1] at hd
  · by_cases h2 : effect = TICK
    · subst h2
      have hA : ¬(TICK < 0 ∨ TICK > TICK) := by decide
      have hB : ¬(TICK < (0 : Int)) := by decide
      have hret : (halCall envPerform11 (TICK, strength) g.stPerform11).1 =
          HReturn.ok (Status.UNSUPPORTED_OPERATION, d) := by
        simpa [vibratorPerformEffect, hA, hB] using hd
      simp [vibratorPerformEffect, hA, hB, hret, performFinish,
        errorLevelCount, plogIsError, HReturn.isOk]
    · have hret : (halCall envPerform (effect, strength) g.stPerform).1 =
          HReturn.ok (Status.UNSUPPORTED_OPERATION, d) := by
        simpa [vibratorPerformEffect, h1, h2] using hd
      simp [vibratorPerformEffect, h1, h2, hret, performFinish,
        errorLevelCount, plogIsError, HReturn.isOk]

/-- Witness for the amended C6 at a concrete input (first attempt already
completes with `UNSUPPORTED_OPERATION`, so no diagnostic at all). -/
theorem vibratorPerformEffect_unsupported_silent_witness :
    ((vibratorPerformEffect
        (envConst (Int × Int) (HReturn.ok (Status.UNSUPPORTED_OPERATION, 5)))
        (envConst (Int × Int) (HReturn.ok (Status.UNSUPPORTED_OPERATION, 5)))
        gReady Status.UNKNOWN_ERROR 0 0 1).ret = -1 ∧
      (vibratorPerformEffect
        (envConst (Int × Int) (HReturn.ok (Status.UNSUPPORTED_OPERATION, 5)))
        (envConst (Int × Int) (HReturn.ok (Status.UNSUPPORTED_OPERATION, 5)))
        gReady Status.UNKNOWN_ERROR 0 0 1).logs = [] ∧
      errorLevelCount (vibratorPerformEffect
        (envConst (Int × Int) (HReturn.ok (Status.UNSUPPORTED_OPERATION, 5)))
        (envConst (Int × Int) (HReturn.ok (Status.UNSUPPORTED_OPERATION, 5)))
        gReady Status.UNKNOWN_ERROR 0 0 1) =
        retryErrorCount (vibratorPerformEffect
          (envConst (Int × Int) (HReturn.ok (Status.UNSUPPORTED_OPERATION, 5)))
          (envConst (Int × Int) (HReturn.ok (Status.UNSUPPORTED_OPERATION, 5)))
          gReady Status.UNKNOWN_ERROR 0 0 1).halTrace) ∧
    retryErrorCount (vibratorPerformEffect
      (envConst (Int × Int) (HReturn.ok (Status.UNSUPPORTED_OPERATION, 5)))
      (envConst (Int × Int) (HReturn.ok (Status.UNSUPPORTED_OPERATION, 5)))
      gReady Status.UNKNOWN_ERROR 0 0 1).halTrace = 0 :=
  ⟨vibratorPerformEffect_unsupported_silent
      (envConst (Int × Int) (HReturn.ok (Status.UNSUPPORTED_OPERATION, 5)))
      (envConst (Int × Int) (HReturn.ok (Status.UNSUPPORTED_OPERATION, 5)))
      gReady Status.UNKNOWN_ERROR 0 0 1 5 (by decide), by decide⟩

/-- C7: whenever the dispatched call completes with logical status `OK` and a
duration payload `d` milliseconds (a `uint32_t` value, hence `d < 2^32`),
`performEffect` returns exactly `d`. -/
theorem vibratorPerformEffect_ok_returns_duration
    (envPerform envPerform11 : HalEnv (Int × Int) PerformReply)
    (g : GlobalState) (indetStatus : Status) (indetLengthMs : Nat)
    (effect strength : Int) (d : Nat)
    (hd : (vibratorPerformEffect envPerform envPerform11 g indetStatus
        indetLengthMs effect strength).dispatch =
      some (HReturn.ok (Status.OK, d)))
    (hlt : d < 4294967296) :
    (vibratorPerformEffect envPerform envPerform11 g indetStatus indetLengthMs
        effect strength).ret = (d : Int) := by
  have hu : u32 d = d := Nat.mod_eq_of_lt hlt
  by_cases h1 : effect < 0 ∨ effect > TICK
  · exfalso
    simp [vibratorPerformEffect, h1] at hd
  · by_cases h2 : effect = TICK
    · subst h2
      have hA : ¬(TICK < 0 ∨ TICK > TICK) := by decide
      have hB : ¬(TICK < (0 : Int)) := by decide
      have hret : (halCall envPerform11 (TICK, strength) g.stPerform11).1 =
          HReturn.ok (Status.OK, d) := by
        simpa [vibratorPerformEffect, hA, hB] using hd
      simp [vibratorPerformEffect, hA, hB, hret, performFinish, hu]
    · have hret : (halCall envPerform (effect, strength) g.stPerform).1 =
          HReturn.ok (Status.OK, d) := by
        simpa [vibratorPerformEffect, h1, h2] using hd
      simp [vibratorPerformEffect, h1, h2, hret, performFinish, hu]

/-- Witness for C7 at a concrete input (the spec's own example: `TICK` with
the service returning OK/12 yields 12). -/
theorem vibratorPerformEffect_ok_returns_duration_witness :
    (vibratorPerformEffect (envConst (Int × Int) (HReturn.ok (Status.OK, 12)))
        (envConst (Int × Int) (HReturn.ok (Status.OK, 12))) gReady
        Status.UNKNOWN_ERROR 0 2 1).ret = (12 : Int) :=
  vibratorPerformEffect_ok_returns_duration
    (envConst (Int × Int) (HReturn.ok (Status.OK, 12)))
    (envConst (Int × Int) (HReturn.ok (Status.OK, 12))) gReady
    Status.UNKNOWN_ERROR 0 2 1 12 (by decide) (by decide)

/-- Witness for the amended C3 at a concrete input. -/
theorem halCall_unavailable_permanent_witness :
    halCall (envFail Unit Status) () (initState none) =
      (NullptrStatus, initState none, []) ∧
    reconnectCount
      (halCall (envFail Unit Status) () (initState none)).2.2 = 0 ∧
    attemptCount (halCall (envFail Unit Status) () (initState none)).2.2 = 0 ∧
    (halCall (envFail Unit Status) () (initState none)).2.1.sAvailable =
      false :=
  halCall_unavailable_permanent (envFail Unit Status) () (initState none) rfl

/-- C8 counterexample: `vibratorSetAmplitude(-1)` against a reachable service
makes the service receive 4294967295 (`static_cast<uint32_t>(-1)`), not the
caller's value -1 — the value is not passed through verbatim for negative
levels. -/
theorem vibratorSetAmplitude_negative_not_verbatim_cex :
    (vibratorSetAmplitude (envConst Int (HReturn.ok Status.OK)) gReady
        (-1)).2.1 =
      [HalEvent.serviceCall 1 4294967295 (HReturn.ok Status.OK)] ∧
    (4294967295 : Int) ≠ (-1 : Int) := by
  decide

/-- C8 amended: `setAmplitude` performs no validation or range enforcement —
for every `jint` level it unconditionally dispatches to the service, and
every actual service invocation carries `level mod 2^32`
(`static_cast<uint32_t>(level)`): nonnegative levels arrive verbatim,
negative levels arrive as `level + 2^32`. -/
theorem vibratorSetAmplitude_unvalidated_mod32 (env : HalEnv Int Status)
    (g : GlobalState) (amplitude : Int)
    (hlo : -2147483648 ≤ amplitude) (hhi : amplitude < 2147483648) :
    (vibratorSetAmplitude env g amplitude).2.1 =
      (halCall env (amplitude % 4294967296) g.stSetAmplitude).2.2 ∧
    (∀ ev ∈ (vibratorSetAmplitude env g amplitude).2.1,
      ∀ x, callArgs ev = some x → x = amplitude % 4294967296) ∧
    (0 ≤ amplitude → amplitude % 4294967296 = amplitude) ∧
    (amplitude < 0 → amplitude % 4294967296 = amplitude + 4294967296) := by
  refine ⟨rfl, ?_, ?_, ?_⟩
  · intro ev hev x hx
    exact callArgs_halCall env (u32ofInt amplitude) g.stSetAmplitude ev hev x hx
  · intro h0; omega
  · intro hneg; omega

/-- Witness for the amended C8 at the concrete input `-1`. -/
theorem vibratorSetAmplitude_unvalidated_mod32_witness :
    ((-1 : Int) % 4294967296 = -1 + 4294967296) ∧
    (vibratorSetAmplitude (envConst Int (HReturn.ok Status.OK)) gReady
        (-1)).2.1 =
      (halCall (envConst Int (HReturn.ok Status.OK)) ((-1 : Int) % 4294967296)
        gReady.stSetAmplitude).2.2 :=
  ⟨(vibratorSetAmplitude_unvalidated_mod32 (envConst Int (HReturn.ok Status.OK))
      gReady (-1) (by decide) (by decide)).2.2.2 (by decide),
    (vibratorSetAmplitude_unvalidated_mod32 (envConst Int (HReturn.ok Status.OK))
      gReady (-1) (by decide) (by decide)).1⟩

/-- C9: the cached handle and availability flag are per `halCall`
instantiation, not one process-wide pair — every operation leaves every
other instantiation's statics exactly as they were (for `performEffect`,
every instantiation other than the one its entry point used), even when the
invocation it performs reconnects and rewrites its own statics. -/
theorem per_instantiation_state_isolation
    (envPing : HalEnv Unit Unit) (envOn : HalEnv Int Status)
    (envOff : HalEnv Unit Status) (envSup : HalEnv Unit Bool)
    (envAmp : HalEnv Int Status)
    (envPerform envPerform11 : HalEnv (Int × Int) PerformReply)
    (g : GlobalState) (timeout_ms amplitude effect strength : Int)
    (indetStatus : Status) (indetLengthMs : Nat) :
    (∀ op, op ≠ HalOp.ping →
      stateOf (vibratorInit envPing g).1 op = stateOf g op) ∧
    (∀ op, op ≠ HalOp.ping →
      stateOf (vibratorExists envPing g).2.1 op = stateOf g op) ∧
    (∀ op, op ≠ HalOp.on →
      stateOf (vibratorOn envOn g timeout_ms).1 op = stateOf g op) ∧
    (∀ op, op ≠ HalOp.off →
      stateOf (vibratorOff envOff g).1 op = stateOf g op) ∧
    (∀ op, op ≠ HalOp.supportsAmplitudeControl →
      stateOf (vibratorSupportsAmplitudeControl envSup g).2.1 op =
        stateOf g op) ∧
    (∀ op, op ≠ HalOp.setAmplitude →
      stateOf (vibratorSetAmplitude envAmp g amplitude).1 op = stateOf g op) ∧
    (∀ op, some op ≠ (vibratorPerformEffect envPerform envPerform11 g
        indetStatus indetLengthMs effect strength).entry →
      stateOf (vibratorPerformEffect envPerform envPerform11 g indetStatus
        indetLengthMs effect strength).g op = stateOf g op) := by
  refine ⟨?_, ?_, ?_, ?_, ?_, ?_, ?_⟩
  · intro op hop; cases op <;> simp_all [vibratorInit, stateOf]
  · intro op hop; cases op <;> simp_all [vibratorExists, stateOf]
  · intro op hop; cases op <;> simp_all [vibratorOn, stateOf]
  · intro op hop; cases op <;> simp_all [vibratorOff, stateOf]
  · intro op hop; cases op <;>
      simp_all [vibratorSupportsAmplitudeControl, stateOf]
  · intro op hop; cases op <;> simp_all [vibratorSetAmplitude, stateOf]
  · intro op hop
    by_cases h1 : effect < 0 ∨ effect > TICK
    · have hg : (vibratorPerformEffect envPerform envPerform11 g indetStatus
          indetLengthMs effect strength).g = g := by
        simp [vibratorPerformEffect, h1]
      rw [hg]
    · by_cases h2 : effect = TICK
      · subst h2
        have hA : ¬(TICK < 0 ∨ TICK > TICK) := by decide
        have hB : ¬(TICK < (0 : Int)) := by decide
        have hent : (vibratorPerformEffect envPerform envPerform11 g
            indetStatus indetLengthMs TICK strength).entry =
            some HalOp.perform_1_1 := by
          simp [vibratorPerformEffect, hA, hB]
        have hg : (vibratorPerformEffect envPerform envPerform11 g indetStatus
            indetLengthMs TICK strength).g =
            { g with stPerform11 := (halCall envPerform11 (TICK, strength)
                g.stPerform11).2.1 } := by
          simp [vibratorPerformEffect, hA, hB]
        rw [hent] at hop
        rw [hg]
        cases op <;> simp_all [stateOf]
      · have hent : (vibratorPerformEffect envPerform envPerform11 g
            indetStatus indetLengthMs effect strength).entry =
            some HalOp.perform := by
          simp [vibratorPerformEffect, h1, h2]
        have hg : (vibratorPerformEffect envPerform envPerform11 g indetStatus
            indetLengthMs effect strength).g =
            { g with stPerform := (halCall envPerform (effect, strength)
                g.stPerform).2.1 } := by
          simp [vibratorPerformEffect, h1, h2]
        rw [hent] at hop
        rw [hg]
        cases op <;> simp_all [stateOf]

/-- Witness for C9 at a concrete input: a `setAmplitude` whose transport
attempts fail reconnects and rewrites its own instantiation's cached handle
while the `perform` instantiation's statics are untouched. -/
theorem per_instantiation_state_isolation_witness :
    stateOf (vibratorSetAmplitude (envFail Int Status) gReady 5).1
        HalOp.perform =
      stateOf gReady HalOp.perform ∧
    (vibratorSetAmplitude (envFail Int Status) gReady 5).1.stSetAmplitude ≠
      gReady.stSetAmplitude :=
  ⟨(per_instantiation_state_isolation (envFail Unit Unit) (envFail Int Status)
      (envFail Unit Status) (envFail Unit Bool) (envFail Int Status)
      (envFail (Int × Int) PerformReply) (envFail (Int × Int) PerformReply)
      gReady 0 5 0 0 Status.OK 0).2.2.2.2.2.1 HalOp.perform (by decide),
    by decide⟩

/-- C10: `performEffect` never validates the strength argument — for every
in-range effect id and EVERY integer strength (including values outside the
LIGHT/MEDIUM/STRONG set 0/1/2), an entry point is selected and every actual
service invocation of the run carries exactly the pair
`(effect, strength)`, the strength forwarded unchanged (the
`static_cast<EffectStrength>` is to an enum declared in the external HAL
headers and is modelled value-preserving). -/
theorem vibratorPerformEffect_strength_forwarded
    (envPerform envPerform11 : HalEnv (Int × Int) PerformReply)
    (g : GlobalState) (indetStatus : Status) (indetLengthMs : Nat)
    (effect strength : Int) (h0 : 0 ≤ effect) (h2 : effect ≤ TICK) :
    (vibratorPerformEffect envPerform envPerform11 g indetStatus indetLengthMs
        effect strength).entry.isSome = true ∧
    ∀ ev ∈ (vibratorPerformEffect envPerform envPerform11 g indetStatus
        indetLengthMs effect strength).halTrace,
      ∀ x, callArgs ev = some x → x = (effect, strength) := by
  by_cases hT : effect = TICK
  · subst hT
    have hA : ¬(TICK < 0 ∨ TICK > TICK) := by decide
    have hB : ¬(TICK < (0 : Int)) := by decide
    have hent : (vibratorPerformEffect envPerform envPerform11 g indetStatus
        indetLengthMs TICK strength).entry = some HalOp.perform_1_1 := by
      simp [vibratorPerformEffect, hA, hB]
    have htr : (vibratorPerformEffect envPerform envPerform11 g indetStatus
        indetLengthMs TICK strength).halTrace =
        (halCall envPerform11 (TICK, strength) g.stPerform11).2.2 := by
      simp [vibratorPerformEffect, hA, hB]
    refine ⟨by rw [hent]; rfl, ?_⟩
    rw [htr]
    exact callArgs_halCall envPerform11 (TICK, strength) g.stPerform11
  · have h0' : ¬(effect < 0) := not_lt.mpr h0
    have h2' : ¬(effect > TICK) := not_lt.mpr h2
    have h1 : ¬(effect < 0 ∨ effect > TICK) := by
      intro h; rcases h with h | h
      · exact h0' h
      · exact h2' h
    have hent : (vibratorPerformEffect envPerform envPerform11 g indetStatus
        indetLengthMs effect strength).entry = some HalOp.perform := by
      simp [vibratorPerformEffect, h1, hT]
    have htr : (vibratorPerformEffect envPerform envPerform11 g indetStatus
        indetLengthMs effect strength).halTrace =
        (halCall envPerform (effect, strength) g.stPerform).2.2 := by
      simp [vibratorPerformEffect, h1, hT]
    refine ⟨by rw [hent]; rfl, ?_⟩
    rw [htr]
    exact callArgs_halCall envPerform (effect, strength) g.stPerform

/-- Witness for C10 at a concrete input: strength 1000 (far outside the
enumerated set) is forwarded unchanged to the service. -/
theorem vibratorPerformEffect_strength_forwarded_witness :
    (vibratorPerformEffect (envConst (Int × Int) (HReturn.ok (Status.OK, 3)))
        (envConst (Int × Int) (HReturn.ok (Status.OK, 3))) gReady Status.OK 0
        1 1000).entry.isSome = true ∧
    (vibratorPerformEffect (envConst (Int × Int) (HReturn.ok (Status.OK, 3)))
        (envConst (Int × Int) (HReturn.ok (Status.OK, 3))) gReady Status.OK 0
        1 1000).halTrace =
      [HalEvent.serviceCall 1 (1, 1000) (HReturn.ok (Status.OK, 3))] :=
  ⟨(vibratorPerformEffect_strength_forwarded
      (envConst (Int × Int) (HReturn.ok (Status.OK, 3)))
      (envConst (Int × Int) (HReturn.ok (Status.OK, 3))) gReady Status.OK 0
      1 1000 (by decide) (by decide)).1,
    by decide⟩
